import Mathlib

/-!
Verification development for the UnveilDocs document-analysis frontend.

Two pieces of the repository are embedded here, translated from the source:

* the Analysis Result Normalizer: the data-extraction block of
  `Frontend/src/components/LegalInsights/LegalInsights.jsx` (lines 992-1104),
  which maps a loosely-shaped backend analysis payload to the display record;
* the Upload/Analysis Workflow Controller: the handlers of
  `Frontend/src/components/Homepage/HomePage.jsx` (`handleFileUpload`,
  `handleReupload`, `handleStartAnalysis`), the reupload confirmation modal of
  `Frontend/src/components/Chat/ReuploadConfirmModal.jsx` wired through
  `Chat.jsx`, and `handleResponse` of `Frontend/src/services/apiService.js`.

Modelling conventions for the JavaScript source:

* A JS number is `JNum`: a finite rational or `NaN` (the code's number checks
  are `typeof x === 'number' && !isNaN(x)`, which this domain captures; the
  exotic infinities are not needed by any claim).
* An optional/absent field is `Option`; `undefined` is `none`.
* `a || b` on strings is `jsOrStr` (empty string is falsy), on numbers
  `jsOrNum` (0 and NaN are falsy); arrays and objects are always truthy, so
  `arr || []` is `Option.getD`.
* A template-literal segment coerces `undefined` to the string "undefined"
  (`jsTemplate`).
* `Math.round x` is `jsRound x = ⌊x + 1/2⌋` (JS rounds half toward +∞).
* An object literal used as a lookup table is a finite association list
  (inherited prototype keys are outside the model).
* The async handlers are state transformers parametrised by the single
  collaborator outcome of the attempt (the code performs exactly one
  collaborator call per attempt and never retries); a `setTimeout` that
  clears the error banner is recorded as a pending timer delay, and
  `runErrorClearTimers` models those timers firing.
-/

namespace UnveilDocs

/-- A JavaScript number: a finite rational, or NaN. -/
inductive JNum where
  | finite (q : ℚ)
  | nan
deriving DecidableEq, Repr

/-- JS `x || d` for an optional string: the empty string is falsy. -/
def jsOrStr (x : Option String) (d : String) : String :=
  match x with
  | some s => if s = "" then d else s
  | none => d

/-- JS `x || d` for an optional number: `0` and `NaN` are falsy. -/
def jsOrNum (x : Option JNum) (d : ℚ) : ℚ :=
  match x with
  | some (JNum.finite q) => if q = 0 then d else q
  | some JNum.nan => d
  | none => d

/-- A template-literal segment: JS coerces `undefined` to the string
"undefined". -/
def jsTemplate (x : Option String) : String :=
  x.getD "undefined"

/-- JS `Math.round`: half-way cases round toward positive infinity. -/
def jsRound (q : ℚ) : ℤ :=
  ⌊q + 1 / 2⌋

/-- JS `toLowerCase`, character by character (the source only feeds it
ASCII level names). -/
def jsToLower (s : String) : String :=
  String.mk (s.data.map Char.toLower)

/-- JS `toUpperCase`, character by character. -/
def jsToUpper (s : String) : String :=
  String.mk (s.data.map Char.toUpper)

/-! ## Data model of the raw backend analysis payload

Every field may be absent (the backend payload is loosely shaped); present
fields carry the documented types. -/

/-- An entry of `key_provisions`. -/
structure Provision where
  «section» : Option String
  content : Option String
deriving DecidableEq, Repr

/-- An entry of one of the categorized risk lists. -/
structure RiskEntry where
  risk : Option String
deriving DecidableEq, Repr

/-- An entry of `recommendations`. -/
structure RecEntry where
  recommendation : Option String
deriving DecidableEq, Repr

/-- The `risk_assessment` group. -/
structure RiskAssessment where
  overall_risk_level : Option String
  score : Option JNum
  financial_risks : Option (List RiskEntry)
  legal_risks : Option (List RiskEntry)
  compliance_risks : Option (List RiskEntry)
deriving DecidableEq, Repr

/-- The empty `risk_assessment` mapping. -/
def RiskAssessment.empty : RiskAssessment :=
  ⟨none, none, none, none, none⟩

/-- The `document_summary` group. -/
structure DocumentSummary where
  main_purpose : Option String
  document_type : Option String
  parties_involved : Option (List String)
  jurisdiction : Option String
  effective_date : Option String
  expiration_date : Option String
deriving DecidableEq, Repr

/-- The empty `document_summary` mapping. -/
def DocumentSummary.empty : DocumentSummary :=
  ⟨none, none, none, none, none, none⟩

/-- The backend `result` mapping (the raw analysis value). -/
structure RawAnalysisResult where
  document_summary : Option DocumentSummary
  key_provisions : Option (List Provision)
  risk_assessment : Option RiskAssessment
  recommendations : Option (List RecEntry)
  confidence_score : Option JNum
deriving DecidableEq, Repr

/-- The empty raw result mapping `\x7b\x7d`. -/
def RawAnalysisResult.empty : RawAnalysisResult :=
  ⟨none, none, none, none, none⟩

/-- The `analysisData` prop handed to `LegalInsights` (the analysis
response body's `data` field); its `result` field may be absent. -/
structure AnalysisData where
  result : Option RawAnalysisResult
deriving DecidableEq, Repr

/-! ## Normalized output shape -/

/-- A row of the derived legal-comparison table. -/
structure ComparisonRow where
  aspect : String
  current : String
  recommended : String
  impact : String
deriving DecidableEq, Repr

/-- An entry of the derived glossary. -/
structure GlossaryEntry where
  term : String
  definition : String
deriving DecidableEq, Repr

/-- The complete display-ready record assembled by `LegalInsights`.
`riskFactors` and `recommendations` elements are `Option String` because the
source maps `risk => risk.risk` (resp. `rec => rec.recommendation`) without a
coercion, so an entry missing the inner field yields the JS value
`undefined` (not a string) in the list. -/
structure NormalizedInsight where
  summary : String
  documentType : String
  parties : List String
  jurisdiction : String
  effectiveDate : String
  expirationDate : String
  keyClauses : List String
  riskLevel : String
  riskScore : JNum
  riskFactors : List (Option String)
  recommendations : List (Option String)
  comparisonRows : List ComparisonRow
  glossary : List GlossaryEntry
  confidencePercent : ℤ
deriving DecidableEq, Repr

/-! ## The Normalizer (LegalInsights.jsx, lines 992-1104)

Each definition below mirrors one `const` of the source block, suffixed `Of`
and parametrised by the `analysisData` prop. -/

/-- Source line 993: `const result = analysisData?.result || \x7b\x7d`. -/
def resultOf (analysisData : Option AnalysisData) : RawAnalysisResult :=
  (analysisData.bind AnalysisData.result).getD RawAnalysisResult.empty

/-- Source line 996: `const documentSummary = result.document_summary || \x7b\x7d`. -/
def documentSummaryOf (a : Option AnalysisData) : DocumentSummary :=
  (resultOf a).document_summary.getD DocumentSummary.empty

/-- Source lines 997-999: the summary fallback chain. -/
def summaryOf (a : Option AnalysisData) : String :=
  jsOrStr (documentSummaryOf a).main_purpose
    (jsOrStr
      (match (documentSummaryOf a).document_type with
        | some t => if t = "" then none else some ("This is a " ++ jsToLower t ++ " document.")
        | none => none)
      ("This document has been uploaded for analysis. The comprehensive AI analysis " ++
       "will provide detailed insights about its content, key clauses, risk assessment, " ++
       "and recommendations once processing is complete."))

/-- Source line 1002: `documentSummary.document_type || "Legal Document"`. -/
def documentTypeOf (a : Option AnalysisData) : String :=
  jsOrStr (documentSummaryOf a).document_type "Legal Document"

/-- Source line 1003: `documentSummary.parties_involved || []`. -/
def partiesOf (a : Option AnalysisData) : List String :=
  (documentSummaryOf a).parties_involved.getD []

/-- Source line 1004: `documentSummary.jurisdiction || "Not specified"`. -/
def jurisdictionOf (a : Option AnalysisData) : String :=
  jsOrStr (documentSummaryOf a).jurisdiction "Not specified"

/-- Source line 1005. -/
def effectiveDateOf (a : Option AnalysisData) : String :=
  jsOrStr (documentSummaryOf a).effective_date "Not specified"

/-- Source line 1006. -/
def expirationDateOf (a : Option AnalysisData) : String :=
  jsOrStr (documentSummaryOf a).expiration_date "Not specified"

/-- Source line 1009: `const keyProvisions = result.key_provisions || []`. -/
def keyProvisionsOf (a : Option AnalysisData) : List Provision :=
  (resultOf a).key_provisions.getD []

/-- Source lines 1012-1017: the fixed 4-item key-clauses placeholder. -/
def keyClausesPlaceholder : List String :=
  ["Document uploaded successfully and ready for AI analysis.",
   "Comprehensive insights will be generated to help you understand important provisions.",
   "Risk assessment and recommendations will be provided based on document content.",
   "Legal glossary will highlight key terms and definitions found in your document."]

/-- Source lines 1010-1017: each provision becomes the template string
`<section>: <content>` (with `undefined` segments for missing fields), else
the placeholder list. -/
def keyClausesDataOf (a : Option AnalysisData) : List String :=
  if (keyProvisionsOf a).length > 0 then
    (keyProvisionsOf a).map (fun p => jsTemplate p.«section» ++ ": " ++ jsTemplate p.content)
  else
    keyClausesPlaceholder

/-- Source line 1020: `const riskAssessment = result.risk_assessment || \x7b\x7d`. -/
def riskAssessmentOf (a : Option AnalysisData) : RiskAssessment :=
  (resultOf a).risk_assessment.getD RiskAssessment.empty

/-- Source line 1021: `riskAssessment.overall_risk_level || 'PENDING'`. -/
def riskLevelOf (a : Option AnalysisData) : String :=
  jsOrStr (riskAssessmentOf a).overall_risk_level "PENDING"

/-- Source lines 1024-1032: the risk-level lookup table. -/
def riskMap : List (String × ℚ) :=
  [("none", 0), ("low", 25), ("moderate", 40), ("medium", 50),
   ("high", 75), ("critical", 90), ("pending", 0)]

/-- Source lines 1023-1034: `riskMap[riskLevel?.toLowerCase?.()] || 0`. -/
def getRiskScore (riskLevel : String) : ℚ :=
  jsOrNum ((riskMap.lookup (jsToLower riskLevel)).map JNum.finite) 0

/-- Source lines 1037-1039: the backend numeric score wins when it is a
number and not NaN, else the level lookup. -/
def riskScoreOf (a : Option AnalysisData) : JNum :=
  match (riskAssessmentOf a).score with
  | some (JNum.finite q) => JNum.finite q
  | _ => JNum.finite (getRiskScore (riskLevelOf a))

/-- Source lines 1042-1046: concatenation of the categorized risk lists,
each entry projected to its `risk` field (which may be absent, yielding the
JS value `undefined`). -/
def allRisksOf (a : Option AnalysisData) : List (Option String) :=
  ((riskAssessmentOf a).financial_risks.getD []).map RiskEntry.risk ++
  ((riskAssessmentOf a).legal_risks.getD []).map RiskEntry.risk ++
  ((riskAssessmentOf a).compliance_risks.getD []).map RiskEntry.risk

/-- Source lines 1048-1052: the fixed 3-item risk-factors placeholder. -/
def riskFactorsPlaceholder : List (Option String) :=
  [some "Analysis in progress",
   some "Risk factors will be identified",
   some "Compliance issues will be highlighted"]

/-- Source lines 1048-1052. -/
def riskFactorsOf (a : Option AnalysisData) : List (Option String) :=
  if (allRisksOf a).length > 0 then allRisksOf a else riskFactorsPlaceholder

/-- Source lines 1058-1063: the fixed 4-item recommendations placeholder. -/
def recommendationsPlaceholder : List (Option String) :=
  [some "Upload a legal document to receive AI-powered recommendations",
   some "Analysis will identify areas for improvement and compliance",
   some "Specific suggestions will be provided based on document content",
   some "Best practices and legal standards will be referenced"]

/-- Source lines 1055-1063: each entry projected to its `recommendation`
field, else the placeholder list. -/
def recommendationsOf (a : Option AnalysisData) : List (Option String) :=
  if ((resultOf a).recommendations.getD []).length > 0 then
    ((resultOf a).recommendations.getD []).map RecEntry.recommendation
  else
    recommendationsPlaceholder

/-- Source lines 1066-1091: the derived 4-row comparison table. -/
def comparisonDataOf (a : Option AnalysisData) : List ComparisonRow :=
  [⟨"Document Type",
    jsOrStr (documentSummaryOf a).document_type "Unknown",
    "Properly Classified",
    "Better categorization and analysis"⟩,
   ⟨"Parties Involved",
    (match (documentSummaryOf a).parties_involved with
      | some l => if l.length > 0 then String.intercalate ", " l else "Not identified"
      | none => "Not identified"),
    "Clearly identified",
    "Better understanding of stakeholders"⟩,
   ⟨"Risk Level",
    jsToUpper (riskLevelOf a),
    "Low to Medium",
    "Reduced legal exposure"⟩,
   ⟨"Key Provisions",
    (if (keyProvisionsOf a).length > 0 then
       toString (keyProvisionsOf a).length ++ " identified"
     else "Not analyzed"),
    "All critical clauses highlighted",
    "Complete legal coverage"⟩]

/-- Source lines 1094-1101: the derived 6-entry glossary. -/
def glossaryTermsOf (a : Option AnalysisData) : List GlossaryEntry :=
  [⟨"Document Type",
    jsOrStr (documentSummaryOf a).document_type "The category of legal document being analyzed"⟩,
   ⟨"Parties",
    (match (documentSummaryOf a).parties_involved with
      | some l => jsOrStr (some (String.intercalate ", " l))
          "The entities involved in the legal agreement"
      | none => "The entities involved in the legal agreement")⟩,
   ⟨"Jurisdiction",
    jsOrStr (documentSummaryOf a).jurisdiction
      "The legal system and location governing this document"⟩,
   ⟨"Risk Assessment",
    "Evaluation of potential legal and compliance risks within the document"⟩,
   ⟨"Key Provisions",
    "Important clauses and terms identified through intelligent document processing"⟩,
   ⟨"Legal Insights",
    "Comprehensive analysis providing actionable recommendations for legal documents"⟩]

/-- Source line 1104: `Math.round((result.confidence_score || 0.8) * 100)`. -/
def confidenceScoreOf (a : Option AnalysisData) : ℤ :=
  jsRound (jsOrNum (resultOf a).confidence_score (4 / 5) * 100)

/-- The Normalizer: the complete display record assembled by the
data-extraction block of `LegalInsights` (lines 992-1104). -/
def normalize (analysisData : Option AnalysisData) : NormalizedInsight :=
  { summary := summaryOf analysisData
    documentType := documentTypeOf analysisData
    parties := partiesOf analysisData
    jurisdiction := jurisdictionOf analysisData
    effectiveDate := effectiveDateOf analysisData
    expirationDate := expirationDateOf analysisData
    keyClauses := keyClausesDataOf analysisData
    riskLevel := riskLevelOf analysisData
    riskScore := riskScoreOf analysisData
    riskFactors := riskFactorsOf analysisData
    recommendations := recommendationsOf analysisData
    comparisonRows := comparisonDataOf analysisData
    glossary := glossaryTermsOf analysisData
    confidencePercent := confidenceScoreOf analysisData }

/-! ## The Upload/Analysis Workflow Controller (HomePage.jsx)

The component state of `HomePage` and its handlers, as explicit state
passing. Each async handler is a function of the single collaborator
outcome of the attempt: the source performs exactly one `apiService` call
per attempt and never retries. A `setTimeout(() => setError(null), 5000)`
is recorded as a pending timer delay in the handler result. -/

/-- A browser file as the handlers read it (`file.name`, `file.type`,
`file.size`). -/
structure FileInfo where
  name : String
  type : String
  size : ℕ
deriving DecidableEq, Repr

/-- The upload response's `data` field: `\x7btext, metadata\x7d` (metadata is
opaque and passed through unmodified). -/
structure UploadData where
  text : String
  metadata : String
deriving DecidableEq, Repr

/-- The `newFile` record built in `handleFileUpload` (lines 115-122). -/
structure UploadedFile where
  name : String
  type : String
  size : ℕ
  originalFile : FileInfo
  processedText : String
  metadata : String
deriving DecidableEq, Repr

/-- Lines 115-122: assemble `newFile` from the browser file and the
processed document. -/
def mkUploadedFile (f : FileInfo) (d : UploadData) : UploadedFile :=
  ⟨f.name, f.type, f.size, f, d.text, d.metadata⟩

/-- The `useState` slots of `HomePage` (lines 9-15) that the handlers
touch. -/
structure HPState where
  isUploading : Bool
  uploadedFiles : List UploadedFile
  documentText : String
  analysisResult : Option AnalysisData
  isAnalyzing : Bool
  showAnalysis : Bool
  error : Option String
deriving DecidableEq, Repr

/-- Outcome of the one `apiService.uploadDocument` call of an upload
attempt: a parsed response `\x7bsuccess, data\x7d`, or a thrown error with its
message. -/
inductive UploadOutcome where
  | resp (success : Bool) (data : UploadData)
  | err (message : String)
deriving DecidableEq, Repr

/-- Outcome of the one `apiService.analyzeDocument` call of an analysis
attempt. -/
inductive AnalysisOutcome where
  | resp (success : Bool) (data : AnalysisData)
  | err (message : String)
deriving DecidableEq, Repr

/-- Result of an upload attempt: the final component state and the delays
of the scheduled error-clearing timers. -/
structure UploadStep where
  state : HPState
  timers : List ℕ
deriving DecidableEq, Repr

/-- Result of an analysis attempt: the final component state, whether the
analysis collaborator was invoked, and the scheduled error-clearing
timers. -/
structure AnalysisStep where
  state : HPState
  invoked : Bool
  timers : List ℕ
deriving DecidableEq, Repr

/-- `handleFileUpload` (HomePage.jsx lines 100-147): with an empty file
list nothing happens; otherwise only `files[0]` is uploaded. On a
`success: true` response the uploaded-files slot is replaced wholesale by
the one-element list and `documentText` is set; a `success: false`
response throws `Document processing failed`; any thrown error is caught,
surfaced as `Upload failed: <message>`, and a 5000 ms error-clearing timer
is scheduled. -/
def handleFileUpload (files : List FileInfo) (outcome : UploadOutcome)
    (s : HPState) : UploadStep :=
  match files with
  | [] => ⟨s, []⟩
  | file :: _ =>
    let s1 := { s with isUploading := true, error := none }
    match outcome with
    | .resp true data =>
        ⟨{ s1 with uploadedFiles := [mkUploadedFile file data],
                   documentText := data.text,
                   isUploading := false }, []⟩
    | .resp false _ =>
        ⟨{ s1 with error := some "Upload failed: Document processing failed",
                   isUploading := false }, [5000]⟩
    | .err m =>
        ⟨{ s1 with error := some ("Upload failed: " ++ m),
                   isUploading := false }, [5000]⟩

/-- `handleReupload` (HomePage.jsx lines 149-155): discard the uploaded
files, the document text, the analysis result, the analysis view flag and
any error. -/
def handleReupload (s : HPState) : HPState :=
  { s with uploadedFiles := [], documentText := "", analysisResult := none,
           showAnalysis := false, error := none }

/-- `handleStartAnalysis` (HomePage.jsx lines 157-186): with empty
`documentText` the handler sets the validation message and returns without
invoking the collaborator; otherwise it invokes `analyzeDocument` once. A
`success: true` response stores the result and shows the analysis; a
`success: false` response throws `Analysis failed`; any thrown error is
surfaced as `Analysis failed: <message>` with a 5000 ms error-clearing
timer. `isAnalyzing` is reset in the `finally` block. -/
def handleStartAnalysis (outcome : AnalysisOutcome) (s : HPState) :
    AnalysisStep :=
  if s.documentText = "" then
    ⟨{ s with error := some "No document text available for analysis" }, false, []⟩
  else
    let s1 := { s with isAnalyzing := true, error := none }
    match outcome with
    | .resp true data =>
        ⟨{ s1 with analysisResult := some data, showAnalysis := true,
                   isAnalyzing := false }, true, []⟩
    | .resp false _ =>
        ⟨{ s1 with error := some "Analysis failed: Analysis failed",
                   isAnalyzing := false }, true, [5000]⟩
    | .err m =>
        ⟨{ s1 with error := some ("Analysis failed: " ++ m),
                   isAnalyzing := false }, true, [5000]⟩

/-- The scheduled `setTimeout(() => setError(null), 5000)` callbacks
firing: each pending timer clears the error banner. -/
def runErrorClearTimers (st : HPState) (timers : List ℕ) : HPState :=
  timers.foldl (fun acc _ => { acc with error := none }) st

/-! ## The reupload confirmation (Chat.jsx + ReuploadConfirmModal.jsx) -/

/-- The modal-related state of `Chat` and `ReuploadConfirmModal`:
`showReuploadModal` (Chat.jsx line 60) and the modal's internal `step`
(ReuploadConfirmModal.jsx line 5). -/
structure ChatState where
  step : ℕ
  showReuploadModal : Bool
deriving DecidableEq, Repr

/-- Phase one: the reupload button opens the confirmation prompt
(Chat.jsx `handleReupload`, lines 82-85). -/
def openReuploadPrompt (c : ChatState) : ChatState :=
  { c with showReuploadModal := true }

/-- Phase two, confirm: `handleFirstConfirm` (ReuploadConfirmModal.jsx
lines 7-10) runs `onConfirm` — which reaches `HomePage.handleReupload` —
then `handleClose` resets the step and closes the modal. -/
def confirmReupload (_c : ChatState) (s : HPState) : ChatState × HPState :=
  (⟨1, false⟩, handleReupload s)

/-- Phase two, cancel: `handleClose` (ReuploadConfirmModal.jsx lines
12-15) resets the step and closes the modal; the controller state is
untouched. -/
def cancelReupload (_c : ChatState) (s : HPState) : ChatState × HPState :=
  (⟨1, false⟩, s)

/-! ## HTTP response handling (apiService.js, lines 11-19) -/

/-- The `error` field a backend error body may carry; its `message` may be
absent. -/
structure ErrField where
  message : Option String
deriving DecidableEq, Repr

/-- A parsed JSON response body: an optional `error` group plus the rest
of the payload, opaque to `handleResponse`. -/
structure RespBody where
  error : Option ErrField
  payload : String
deriving DecidableEq, Repr

/-- The fetch `Response.ok` flag: true exactly for 2xx statuses. -/
def respOk (status : ℕ) : Bool :=
  200 ≤ status && status < 300

/-- `handleResponse` (apiService.js lines 11-19): the body is already
parsed as JSON; a non-2xx status throws `data.error?.message ||` the
generic `HTTP error! status: <code>` text, a 2xx status returns the parsed
body unchanged. -/
def handleResponse (status : ℕ) (body : RespBody) : Except String RespBody :=
  if respOk status then
    Except.ok body
  else
    Except.error (jsOrStr (body.error.bind ErrField.message)
      ("HTTP error! status: " ++ toString status))

/-! ## Concrete inputs used by the claim theorems -/

/-- The empty raw mapping, wrapped the way `LegalInsights` receives it. -/
def emptyRawInput : Option AnalysisData :=
  some ⟨some RawAnalysisResult.empty⟩

/-- A payload whose `financial_risks` holds one entry with no `risk`
field. -/
def c1BadInput : Option AnalysisData :=
  some ⟨some { RawAnalysisResult.empty with
    risk_assessment := some { RiskAssessment.empty with
      financial_risks := some [⟨none⟩] } }⟩

/-- The spec example: `risk_assessment` with `score: 62` and
`overall_risk_level: "high"`. -/
def c2Example : Option AnalysisData :=
  some ⟨some { RawAnalysisResult.empty with
    risk_assessment := some { RiskAssessment.empty with
      overall_risk_level := some "high", score := some (JNum.finite 62) } }⟩

/-- The spec example: `overall_risk_level: "moderate"` and no score. -/
def c3Example : Option AnalysisData :=
  some ⟨some { RawAnalysisResult.empty with
    risk_assessment := some { RiskAssessment.empty with
      overall_risk_level := some "moderate" } }⟩

/-- The spec example: an unrecognized `overall_risk_level`. -/
def c3Unknown : Option AnalysisData :=
  some ⟨some { RawAnalysisResult.empty with
    risk_assessment := some { RiskAssessment.empty with
      overall_risk_level := some "unknown-value" } }⟩

/-- An `overall_risk_level` that is present but the empty string. -/
def c3EmptyLevel : Option AnalysisData :=
  some ⟨some { RawAnalysisResult.empty with
    risk_assessment := some { RiskAssessment.empty with
      overall_risk_level := some "" } }⟩

/-- The spec example: two fully-populated key provisions. -/
def c4Example : Option AnalysisData :=
  some ⟨some { RawAnalysisResult.empty with
    key_provisions := some [⟨some "Term", some "2 years"⟩,
                            ⟨some "Fee", some "$500"⟩] }⟩

/-- A key provision whose `section` field is absent. -/
def c4MissingSection : Option AnalysisData :=
  some ⟨some { RawAnalysisResult.empty with
    key_provisions := some [⟨none, some "X"⟩] }⟩

/-- An explicitly empty `key_provisions` sequence. -/
def c4EmptyProvisions : Option AnalysisData :=
  some ⟨some { RawAnalysisResult.empty with key_provisions := some [] }⟩

/-- A payload with `confidence_score: 0.62`. -/
def c8Example : Option AnalysisData :=
  some ⟨some { RawAnalysisResult.empty with
    confidence_score := some (JNum.finite (62 / 100)) }⟩

/-- A payload with `confidence_score: 0`. -/
def c8ZeroInput : Option AnalysisData :=
  some ⟨some { RawAnalysisResult.empty with
    confidence_score := some (JNum.finite 0) }⟩

/-! ## Claim C1 -/

/-- The proviso the amended C1 needs: every entry of the categorized risk
lists carries its `risk` field and every `recommendations` entry carries
its `recommendation` field (the empty mapping satisfies it vacuously). -/
def entriesCarryFields (a : Option AnalysisData) : Bool :=
  ((riskAssessmentOf a).financial_risks.getD []).all (fun e => e.risk.isSome) &&
  ((riskAssessmentOf a).legal_risks.getD []).all (fun e => e.risk.isSome) &&
  ((riskAssessmentOf a).compliance_risks.getD []).all (fun e => e.risk.isSome) &&
  ((resultOf a).recommendations.getD []).all (fun e => e.recommendation.isSome)

theorem all_isSome_map {α : Type} (f : α → Option String) (l : List α)
    (h : l.all (fun e => (f e).isSome) = true) :
    (l.map f).all Option.isSome = true := by
  induction l with
  | nil => rfl
  | cons x xs ih =>
    simp only [List.all_cons, Bool.and_eq_true] at h
    simp only [List.map_cons, List.all_cons, Bool.and_eq_true]
    exact ⟨h.1, ih h.2⟩

/-- Claim C1 (amended). Normalization totality holds for every raw
analysis value — including the empty mapping — whose risk-list entries
carry their `risk` field and whose recommendations entries carry their
`recommendation` field: every field of the output is defined and of the
correct type (string fields and string lists are total by construction of
the embedding), the risk-factor and recommendation lists contain no
undefined element, the risk score is always a finite number (never NaN or
null), the key-clauses list is never empty, and the derived tables have
their fixed sizes. Without the proviso the claim fails: see the
counterexample, where a risk entry without a `risk` field puts the JS
value `undefined` into `riskFactors`. -/
theorem normalization_totality (a : Option AnalysisData)
    (h : entriesCarryFields a = true) :
    (normalize a).riskFactors.all Option.isSome = true ∧
    (normalize a).recommendations.all Option.isSome = true ∧
    (∃ q : ℚ, (normalize a).riskScore = JNum.finite q) ∧
    (normalize a).keyClauses.length > 0 ∧
    (normalize a).comparisonRows.length = 4 ∧
    (normalize a).glossary.length = 6 := by
  unfold entriesCarryFields at h
  simp only [Bool.and_eq_true] at h
  obtain ⟨⟨⟨hf, hl⟩, hc⟩, hr⟩ := h
  refine ⟨?_, ?_, ?_, ?_, rfl, rfl⟩
  · show (riskFactorsOf a).all Option.isSome = true
    unfold riskFactorsOf
    split
    · unfold allRisksOf
      simp only [List.all_append, Bool.and_eq_true]
      exact ⟨⟨all_isSome_map _ _ hf, all_isSome_map _ _ hl⟩, all_isSome_map _ _ hc⟩
    · decide
  · show (recommendationsOf a).all Option.isSome = true
    unfold recommendationsOf
    split
    · exact all_isSome_map _ _ hr
    · decide
  · show ∃ q : ℚ, riskScoreOf a = JNum.finite q
    rcases hsc : (riskAssessmentOf a).score with _ | n
    · exact ⟨_, by unfold riskScoreOf; rw [hsc]⟩
    · cases n with
      | finite q => exact ⟨q, by unfold riskScoreOf; rw [hsc]⟩
      | nan => exact ⟨_, by unfold riskScoreOf; rw [hsc]⟩
  · show (keyClausesDataOf a).length > 0
    unfold keyClausesDataOf
    split
    · rename_i hlen
      simpa using hlen
    · decide

/-- Claim C1, counterexample to the claim as stated: for the input whose
single `financial_risks` entry lacks a `risk` field, `riskFactors` is the
one-element list holding the JS value `undefined` — a field of the output
is not a sequence of defined strings. -/
theorem normalization_totality_counterexample :
    (normalize c1BadInput).riskFactors = [none] ∧
    (normalize c1BadInput).riskFactors.all Option.isSome = false := by
  exact ⟨rfl, rfl⟩

/-- Claim C1, witness: the amended theorem applied to the empty mapping. -/
theorem normalization_totality_witness :
    entriesCarryFields emptyRawInput = true ∧
    ((normalize emptyRawInput).riskFactors.all Option.isSome = true ∧
     (normalize emptyRawInput).recommendations.all Option.isSome = true ∧
     (∃ q : ℚ, (normalize emptyRawInput).riskScore = JNum.finite q) ∧
     (normalize emptyRawInput).keyClauses.length > 0 ∧
     (normalize emptyRawInput).comparisonRows.length = 4 ∧
     (normalize emptyRawInput).glossary.length = 6) :=
  ⟨by decide, normalization_totality emptyRawInput (by decide)⟩

/-! ## Claim C2 -/

/-- Claim C2: an explicit backend score that is a number and not NaN is
used verbatim as `riskScore`, taking priority over the level lookup; when
the score is missing or invalid (NaN), `riskScore` is still a finite
number coming from the lookup — the invalid value never propagates. -/
theorem risk_score_precedence (a : Option AnalysisData) (q : ℚ) :
    ((riskAssessmentOf a).score = some (JNum.finite q) →
      (normalize a).riskScore = JNum.finite q) ∧
    ((riskAssessmentOf a).score = none ∨
        (riskAssessmentOf a).score = some JNum.nan →
      (normalize a).riskScore = JNum.finite (getRiskScore (riskLevelOf a))) := by
  constructor
  · intro h
    show riskScoreOf a = JNum.finite q
    unfold riskScoreOf
    rw [h]
  · intro h
    show riskScoreOf a = JNum.finite (getRiskScore (riskLevelOf a))
    unfold riskScoreOf
    rcases h with h | h <;> rw [h]

/-- Claim C2, witness: the spec example `score: 62` with level "high"
yields `riskScore = 62`, not the lookup value 75. -/
theorem risk_score_precedence_witness :
    (riskAssessmentOf c2Example).score = some (JNum.finite 62) ∧
    (normalize c2Example).riskScore = JNum.finite 62 :=
  ⟨rfl, (risk_score_precedence c2Example 62).1 rfl⟩

/-! ## Claim C3 -/

/-- Claim C3 (amended): with no valid explicit score, `riskScore` comes
from the level via the fixed table, matched on the lowercased level
string; a non-empty recognized level yields its table value with the
level preserved; a non-empty unrecognized level yields 0 while
`riskLevel` preserves the original string; and `riskLevel` defaults to
"PENDING" with score 0 when `overall_risk_level` is absent OR the empty
string — the empty string is falsy for the `||` default, so it is
replaced by "PENDING" rather than preserved (the counterexample to the
claim as stated). -/
theorem risk_level_lookup (a : Option AnalysisData)
    (hscore : (riskAssessmentOf a).score = none ∨
      (riskAssessmentOf a).score = some JNum.nan) :
    riskMap = [("none", 0), ("low", 25), ("moderate", 40), ("medium", 50),
               ("high", 75), ("critical", 90), ("pending", 0)] ∧
    (∀ s v, (riskAssessmentOf a).overall_risk_level = some s → s ≠ "" →
      riskMap.lookup (jsToLower s) = some v →
      (normalize a).riskScore = JNum.finite v ∧ (normalize a).riskLevel = s) ∧
    (∀ s, (riskAssessmentOf a).overall_risk_level = some s → s ≠ "" →
      riskMap.lookup (jsToLower s) = none →
      (normalize a).riskScore = JNum.finite 0 ∧ (normalize a).riskLevel = s) ∧
    ((riskAssessmentOf a).overall_risk_level = none ∨
        (riskAssessmentOf a).overall_risk_level = some "" →
      (normalize a).riskLevel = "PENDING" ∧
      (normalize a).riskScore = JNum.finite 0) := by
  have hbase : riskScoreOf a = JNum.finite (getRiskScore (riskLevelOf a)) := by
    unfold riskScoreOf
    rcases hscore with h | h <;> rw [h]
  refine ⟨rfl, ?_, ?_, ?_⟩
  · intro s v hlv hne hfound
    have hrl : riskLevelOf a = s := by
      unfold riskLevelOf
      rw [hlv]
      simp [jsOrStr, hne]
    refine ⟨?_, hrl⟩
    show riskScoreOf a = JNum.finite v
    rw [hbase, hrl]
    unfold getRiskScore
    rw [hfound]
    by_cases hv : v = 0 <;> simp [jsOrNum, hv]
  · intro s hlv hne hnone
    have hrl : riskLevelOf a = s := by
      unfold riskLevelOf
      rw [hlv]
      simp [jsOrStr, hne]
    refine ⟨?_, hrl⟩
    show riskScoreOf a = JNum.finite 0
    rw [hbase, hrl]
    unfold getRiskScore
    rw [hnone]
    rfl
  · intro hlv
    have hrl : riskLevelOf a = "PENDING" := by
      unfold riskLevelOf
      rcases hlv with hlv | hlv <;> rw [hlv] <;> rfl
    refine ⟨hrl, ?_⟩
    show riskScoreOf a = JNum.finite 0
    rw [hbase, hrl]
    decide

/-- Claim C3, counterexample to the claim as stated: `overall_risk_level`
present as the empty string is an unrecognized level string (it is not in
the table), yet `riskLevel` is "PENDING" — the original string is not
preserved for display, because the empty string is falsy for
`riskAssessment.overall_risk_level || 'PENDING'`. -/
theorem risk_level_lookup_counterexample :
    (riskAssessmentOf c3EmptyLevel).overall_risk_level = some "" ∧
    (riskAssessmentOf c3EmptyLevel).score = none ∧
    riskMap.lookup (jsToLower "") = none ∧
    (normalize c3EmptyLevel).riskLevel = "PENDING" ∧
    (normalize c3EmptyLevel).riskLevel ≠ "" := by
  exact ⟨rfl, rfl, rfl, rfl, by decide⟩

/-- Claim C3, witness: "moderate" yields 40 with the level preserved, the
unrecognized "unknown-value" yields 0 with the string preserved, and both
the absent level and the empty-string level default to "PENDING" with
score 0. -/
theorem risk_level_lookup_witness :
    ((riskAssessmentOf c3Example).score = none ∨
      (riskAssessmentOf c3Example).score = some JNum.nan) ∧
    ((normalize c3Example).riskScore = JNum.finite 40 ∧
      (normalize c3Example).riskLevel = "moderate") ∧
    ((normalize c3Unknown).riskScore = JNum.finite 0 ∧
      (normalize c3Unknown).riskLevel = "unknown-value") ∧
    ((normalize none).riskLevel = "PENDING" ∧
      (normalize none).riskScore = JNum.finite 0) ∧
    ((normalize c3EmptyLevel).riskLevel = "PENDING" ∧
      (normalize c3EmptyLevel).riskScore = JNum.finite 0) :=
  ⟨Or.inl rfl,
   (risk_level_lookup c3Example (Or.inl rfl)).2.1 "moderate" 40 rfl
     (by decide) (by decide),
   (risk_level_lookup c3Unknown (Or.inl rfl)).2.2.1 "unknown-value" rfl
     (by decide) (by decide),
   (risk_level_lookup none (Or.inl rfl)).2.2.2 (Or.inl rfl),
   (risk_level_lookup c3EmptyLevel (Or.inl rfl)).2.2.2 (Or.inr rfl)⟩

/-! ## Claim C4 -/

/-- Claim C4 (amended): a non-empty `key_provisions` maps in order to
`<section>: <content>` template strings, where a missing `section` or
`content` renders as the literal string "undefined" (the JS
template-literal coercion of `undefined`) — not as an empty segment, and
not an exception; an empty or absent `key_provisions` yields the fixed
4-item placeholder, never an empty sequence. -/
theorem key_clause_formatting (a : Option AnalysisData) :
    (∀ ps : List Provision, (resultOf a).key_provisions = some ps → ps ≠ [] →
      (normalize a).keyClauses =
        ps.map (fun p => jsTemplate p.«section» ++ ": " ++ jsTemplate p.content)) ∧
    ((resultOf a).key_provisions = some [] ∨ (resultOf a).key_provisions = none →
      (normalize a).keyClauses = keyClausesPlaceholder ∧
      (normalize a).keyClauses.length = 4) := by
  constructor
  · intro ps hp hne
    show keyClausesDataOf a = _
    unfold keyClausesDataOf keyProvisionsOf
    rw [hp]
    simp only [Option.getD_some]
    rw [if_pos (by simpa using List.length_pos.mpr hne)]
  · intro h
    have hkp : keyProvisionsOf a = [] := by
      unfold keyProvisionsOf
      rcases h with h | h <;> rw [h] <;> rfl
    constructor
    · show keyClausesDataOf a = keyClausesPlaceholder
      unfold keyClausesDataOf
      rw [hkp]
      rfl
    · show (keyClausesDataOf a).length = 4
      unfold keyClausesDataOf
      rw [hkp]
      rfl

/-- Claim C4, counterexample to the claim as stated: a provision without a
`section` field renders as "undefined: X", not as the empty-segment
string ": X" the claim describes. -/
theorem key_clause_formatting_counterexample :
    (normalize c4MissingSection).keyClauses = ["undefined: X"] ∧
    (normalize c4MissingSection).keyClauses ≠ [": X"] := by
  exact ⟨rfl, by decide⟩

/-- Claim C4, witness: the amended theorem at the spec's two-provision
example, and at the explicitly empty sequence. -/
theorem key_clause_formatting_witness :
    (resultOf c4Example).key_provisions =
      some [⟨some "Term", some "2 years"⟩, ⟨some "Fee", some "$500"⟩] ∧
    (normalize c4Example).keyClauses = ["Term: 2 years", "Fee: $500"] ∧
    ((normalize c4EmptyProvisions).keyClauses = keyClausesPlaceholder ∧
     (normalize c4EmptyProvisions).keyClauses.length = 4) :=
  ⟨rfl,
   ((key_clause_formatting c4Example).1
       [⟨some "Term", some "2 years"⟩, ⟨some "Fee", some "$500"⟩] rfl
       (by decide)).trans (by decide),
   (key_clause_formatting c4EmptyProvisions).2 (Or.inl rfl)⟩

/-! ## Claim C8 -/

/-- Claim C8 (amended): `confidencePercent` equals
`Math.round(confidence_score * 100)` when `confidence_score` is present,
numeric, not NaN and nonzero — and then lies in 0..100 whenever the score
is within its documented 0..1 range; it equals 80 when the score is
absent, NaN, or zero (zero is falsy for the `||` fallback, so an explicit
score of 0 yields 80, not 0). -/
theorem confidence_percent_derivation (a : Option AnalysisData) (q : ℚ) :
    ((resultOf a).confidence_score = some (JNum.finite q) → q ≠ 0 →
      (normalize a).confidencePercent = jsRound (q * 100) ∧
      (0 ≤ q → q ≤ 1 →
        0 ≤ (normalize a).confidencePercent ∧
        (normalize a).confidencePercent ≤ 100)) ∧
    ((resultOf a).confidence_score = none ∨
        (resultOf a).confidence_score = some JNum.nan ∨
        (resultOf a).confidence_score = some (JNum.finite 0) →
      (normalize a).confidencePercent = 80) := by
  constructor
  · intro h hq
    have hval : (normalize a).confidencePercent = jsRound (q * 100) := by
      show confidenceScoreOf a = _
      unfold confidenceScoreOf
      rw [h]
      simp [jsOrNum, hq]
    refine ⟨hval, fun h0 h1 => ?_⟩
    rw [hval]
    unfold jsRound
    constructor
    · exact Int.le_floor.mpr (by push_cast; nlinarith)
    · have hlt : ⌊q * 100 + 1 / 2⌋ < 101 :=
        Int.floor_lt.mpr (by push_cast; nlinarith)
      omega
  · intro h
    show confidenceScoreOf a = 80
    unfold confidenceScoreOf
    rcases h with h | h | h <;> rw [h] <;>
      norm_num [jsOrNum, jsRound, Int.floor_eq_iff]

/-- Claim C8, counterexample to the claim as stated: an explicit
`confidence_score` of 0 is present and numeric, yet the code yields 80
while `round(0 * 100) = 0`. -/
theorem confidence_percent_counterexample :
    (normalize c8ZeroInput).confidencePercent = 80 ∧
    jsRound ((0 : ℚ) * 100) = 0 ∧ (80 : ℤ) ≠ (0 : ℤ) := by
  refine ⟨?_, ?_, by decide⟩
  · norm_num [normalize, confidenceScoreOf, c8ZeroInput, resultOf,
      RawAnalysisResult.empty, jsOrNum, jsRound, Int.floor_eq_iff]
  · norm_num [jsRound, Int.floor_eq_iff]

/-- Claim C8, witness: the amended theorem at `confidence_score = 0.62`,
giving 62, and at the absent score, giving 80. -/
theorem confidence_percent_witness :
    (resultOf c8Example).confidence_score = some (JNum.finite (62 / 100)) ∧
    ((62 : ℚ) / 100 ≠ 0) ∧
    (normalize c8Example).confidencePercent = 62 ∧
    (normalize none).confidencePercent = 80 :=
  ⟨rfl, by norm_num,
   (((confidence_percent_derivation c8Example (62 / 100)).1 rfl
       (by norm_num)).1).trans
     (by norm_num [jsRound, Int.floor_eq_iff]),
   (confidence_percent_derivation none 0).2 (Or.inl rfl)⟩

/-! ## Concrete controller states used by the claim theorems -/

/-- A concrete browser file. -/
def exFileInfo : FileInfo :=
  ⟨"contract.pdf", "application/pdf", 1000⟩

/-- A concrete processed-upload payload. -/
def exUploadData : UploadData :=
  ⟨"full text", "meta"⟩

/-- The uploaded-file record the controller stores for `exFileInfo`. -/
def exUploadedFile : UploadedFile :=
  mkUploadedFile exFileInfo exUploadData

/-- A concrete analysis payload. -/
def exAnalysisData : AnalysisData :=
  ⟨some RawAnalysisResult.empty⟩

/-- The Ready state: a document uploaded, nothing in flight, no error. -/
def readyState : HPState :=
  ⟨false, [exUploadedFile], "full text", none, false, false, none⟩

/-- An Analyzing state: a document uploaded and an analysis in flight. -/
def inFlightAnalyzing : HPState :=
  ⟨false, [exUploadedFile], "full text", none, true, false, none⟩

/-! ## Claim C5 -/

/-- Claim C5 (amended): a second `startAnalysis()` while one is already in
flight is NOT rejected — the code has no `ConcurrentOperationError` — and
whenever `documentText` is non-empty the handler invokes the analysis
collaborator again; a success outcome of that second call overwrites
`analysisResult`, so the second request can alter the displayed outcome.
The only mitigation in the source is the UI disabling the Start Analysis
button while `isAnalyzing` is set. -/
theorem concurrency_guard_absent (s : HPState) (o : AnalysisOutcome)
    (_hflight : s.isAnalyzing = true) (htext : s.documentText ≠ "") :
    (handleStartAnalysis o s).invoked = true ∧
    ((handleStartAnalysis o s).state.error = none ∨
      ∃ m : String,
        (handleStartAnalysis o s).state.error = some ("Analysis failed: " ++ m)) ∧
    ∀ d : AnalysisData,
      (handleStartAnalysis (AnalysisOutcome.resp true d) s).state.analysisResult
        = some d ∧
      (handleStartAnalysis (AnalysisOutcome.resp true d) s).state.error = none := by
  refine ⟨?_, ?_, fun d => ?_⟩
  · unfold handleStartAnalysis
    rw [if_neg htext]
    rcases o with ⟨b, data⟩ | m
    · cases b <;> rfl
    · rfl
  · unfold handleStartAnalysis
    rw [if_neg htext]
    rcases o with ⟨b, data⟩ | m
    · cases b
      · exact Or.inr ⟨"Analysis failed", rfl⟩
      · exact Or.inl rfl
    · exact Or.inr ⟨m, rfl⟩
  · constructor <;> (unfold handleStartAnalysis; rw [if_neg htext])

/-- Claim C5, counterexample to the claim as stated: from the concrete
Analyzing state, a direct second `startAnalysis()` call is not rejected
(no error of any kind is raised, in particular no
`ConcurrentOperationError`), the collaborator is invoked again, and its
success outcome overwrites `analysisResult` — altering the eventual
outcome instead of leaving it to the in-flight call. -/
theorem concurrency_guard_counterexample :
    inFlightAnalyzing.isAnalyzing = true ∧
    (handleStartAnalysis (AnalysisOutcome.resp true exAnalysisData)
        inFlightAnalyzing).invoked = true ∧
    (handleStartAnalysis (AnalysisOutcome.resp true exAnalysisData)
        inFlightAnalyzing).state.error = none ∧
    (handleStartAnalysis (AnalysisOutcome.resp true exAnalysisData)
        inFlightAnalyzing).state.analysisResult = some exAnalysisData := by
  exact ⟨rfl, rfl, rfl, rfl⟩

/-- Claim C5, witness: the amended theorem at the concrete Analyzing
state with a failing second outcome. -/
theorem concurrency_guard_absent_witness :
    inFlightAnalyzing.isAnalyzing = true ∧
    inFlightAnalyzing.documentText ≠ "" ∧
    ((handleStartAnalysis (AnalysisOutcome.err "late") inFlightAnalyzing).invoked
        = true ∧
     ((handleStartAnalysis (AnalysisOutcome.err "late") inFlightAnalyzing).state.error
        = none ∨
      ∃ m : String,
        (handleStartAnalysis (AnalysisOutcome.err "late") inFlightAnalyzing).state.error
          = some ("Analysis failed: " ++ m)) ∧
     ∀ d : AnalysisData,
       (handleStartAnalysis (AnalysisOutcome.resp true d)
           inFlightAnalyzing).state.analysisResult = some d ∧
       (handleStartAnalysis (AnalysisOutcome.resp true d)
           inFlightAnalyzing).state.error = none) :=
  ⟨rfl, by decide,
   concurrency_guard_absent inFlightAnalyzing (AnalysisOutcome.err "late")
     rfl (by decide)⟩

/-! ## Claim C6 -/

/-- Claim C6: a collaborator failure of `submitUpload` or `startAnalysis`
is terminal for the attempt (the handler consults exactly one collaborator
outcome and schedules no retry), surfaces its message immediately, leaves
the prior uploaded document, document text, analysis result and analysis
view untouched (no partial result is exposed), and schedules one 5000 ms
timer whose firing clears the error and returns the component to exactly
the pre-attempt stable state. -/
theorem failure_atomicity_and_autoclear (s : HPState) (f : FileInfo)
    (fs : List FileInfo) (m : String)
    (herr : s.error = none) (hup : s.isUploading = false)
    (han : s.isAnalyzing = false) :
    (handleFileUpload (f :: fs) (UploadOutcome.err m) s =
        ⟨{ s with isUploading := false,
                  error := some ("Upload failed: " ++ m) }, [5000]⟩ ∧
      runErrorClearTimers
        { s with isUploading := false, error := some ("Upload failed: " ++ m) }
        [5000] = s) ∧
    (s.documentText ≠ "" →
      handleStartAnalysis (AnalysisOutcome.err m) s =
        ⟨{ s with isAnalyzing := false,
                  error := some ("Analysis failed: " ++ m) }, true, [5000]⟩ ∧
      runErrorClearTimers
        { s with isAnalyzing := false, error := some ("Analysis failed: " ++ m) }
        [5000] = s) := by
  obtain ⟨u, fl, tx, ar, az, sa, er⟩ := s
  simp only at herr hup han
  subst herr hup han
  refine ⟨⟨rfl, rfl⟩, fun htext => ?_⟩
  constructor
  · unfold handleStartAnalysis
    rw [if_neg htext]
  · rfl

/-- Claim C6, witness: a failing upload and a failing analysis from the
concrete Ready state, each surfacing its message and restoring the Ready
state once the 5-second timer fires. -/
theorem failure_atomicity_and_autoclear_witness :
    readyState.error = none ∧
    readyState.isUploading = false ∧
    readyState.isAnalyzing = false ∧
    ((handleFileUpload [exFileInfo] (UploadOutcome.err "boom") readyState =
        ⟨{ readyState with isUploading := false,
                           error := some ("Upload failed: " ++ "boom") }, [5000]⟩ ∧
      runErrorClearTimers
        { readyState with isUploading := false,
                          error := some ("Upload failed: " ++ "boom") }
        [5000] = readyState) ∧
     (readyState.documentText ≠ "" →
      handleStartAnalysis (AnalysisOutcome.err "boom") readyState =
        ⟨{ readyState with isAnalyzing := false,
                           error := some ("Analysis failed: " ++ "boom") },
         true, [5000]⟩ ∧
      runErrorClearTimers
        { readyState with isAnalyzing := false,
                          error := some ("Analysis failed: " ++ "boom") }
        [5000] = readyState)) :=
  ⟨rfl, rfl, rfl,
   failure_atomicity_and_autoclear readyState exFileInfo [] "boom" rfl rfl rfl⟩

/-! ## Claim C7 -/

/-- Claim C7: from any state, opening the reupload prompt and explicitly
confirming discards the uploaded document, the document text, the analysis
result and the analysis view (back to Empty, modal closed), while cancel
leaves the controller state untouched; a subsequent `startAnalysis()` on
the discarded state does not invoke the collaborator and changes nothing
but the validation message `No document text available for analysis` (the
spec's `ValidationError` channel: the state machine does not move). -/
theorem reupload_discard (c : ChatState) (s : HPState) (o : AnalysisOutcome) :
    ((confirmReupload (openReuploadPrompt c) s).2.uploadedFiles = [] ∧
     (confirmReupload (openReuploadPrompt c) s).2.documentText = "" ∧
     (confirmReupload (openReuploadPrompt c) s).2.analysisResult = none ∧
     (confirmReupload (openReuploadPrompt c) s).2.showAnalysis = false ∧
     (confirmReupload (openReuploadPrompt c) s).1.showReuploadModal = false) ∧
    (cancelReupload (openReuploadPrompt c) s).2 = s ∧
    ((handleStartAnalysis o (confirmReupload (openReuploadPrompt c) s).2).invoked
        = false ∧
     (handleStartAnalysis o (confirmReupload (openReuploadPrompt c) s).2).state =
       { (confirmReupload (openReuploadPrompt c) s).2 with
           error := some "No document text available for analysis" } ∧
     (handleStartAnalysis o (confirmReupload (openReuploadPrompt c) s).2).timers
        = []) := by
  exact ⟨⟨rfl, rfl, rfl, rfl, rfl⟩, rfl, rfl, rfl, rfl⟩

/-! ## Claim C9 -/

/-- Claim C9 (amended): a 2xx response returns the parsed body unchanged;
a non-2xx response fails with the body's `error.message` when that field
is present AND non-empty, and with the generic `HTTP error! status:
<code>` text when the field is absent or empty (the empty string is falsy
for `||`, so a present-but-empty message is also replaced by the generic
text). -/
theorem http_error_mapping (status : ℕ) (b : RespBody) :
    (respOk status = true → handleResponse status b = Except.ok b) ∧
    (respOk status = false →
      (∀ m : String, b.error.bind ErrField.message = some m → m ≠ "" →
        handleResponse status b = Except.error m) ∧
      (b.error.bind ErrField.message = none ∨
          b.error.bind ErrField.message = some "" →
        handleResponse status b =
          Except.error ("HTTP error! status: " ++ toString status))) := by
  refine ⟨fun h => ?_, fun h => ⟨fun m hm hne => ?_, fun hc => ?_⟩⟩
  · simp [handleResponse, h]
  · simp [handleResponse, h, hm, jsOrStr, hne]
  · rcases hc with hc | hc <;> simp [handleResponse, h, hc, jsOrStr]

/-- Claim C9, counterexample to the claim as stated: a 500 response whose
body carries a present `error.message` field holding the empty string is
mapped to the generic text, not to the present field's value. -/
theorem http_error_mapping_counterexample :
    (⟨some ⟨some ""⟩, "body"⟩ : RespBody).error.bind ErrField.message = some "" ∧
    handleResponse 500 ⟨some ⟨some ""⟩, "body"⟩ =
      Except.error ("HTTP error! status: " ++ toString 500) ∧
    ("HTTP error! status: " ++ toString 500 : String) ≠ "" := by
  exact ⟨rfl, rfl, by decide⟩

/-- Claim C9, witness: a 404 with a non-empty message fails with that
message; a 200 returns the body unchanged. -/
theorem http_error_mapping_witness :
    respOk 404 = false ∧
    (⟨some ⟨some "Not found"⟩, "body"⟩ : RespBody).error.bind ErrField.message
      = some "Not found" ∧
    ("Not found" : String) ≠ "" ∧
    handleResponse 404 ⟨some ⟨some "Not found"⟩, "body"⟩ =
      Except.error "Not found" ∧
    handleResponse 200 ⟨none, "payload"⟩ = Except.ok ⟨none, "payload"⟩ :=
  ⟨rfl, rfl, by decide,
   ((http_error_mapping 404 ⟨some ⟨some "Not found"⟩, "body"⟩).2 rfl).1
     "Not found" rfl (by decide),
   (http_error_mapping 200 ⟨none, "payload"⟩).1 rfl⟩

/-! ## Claim C10 -/

/-- Claim C10: an upload submitted with a non-empty file list processes
only the first file — the handler's result does not depend on the files
after the first — and on a successful response the uploaded-files
collection is replaced wholesale by the one-element list holding that
file's document (length exactly 1, never appended), with the document text
set from the processed payload. -/
theorem single_document_slot (s : HPState) (f : FileInfo) (fs : List FileInfo)
    (o : UploadOutcome) (d : UploadData) :
    handleFileUpload (f :: fs) o s = handleFileUpload [f] o s ∧
    (handleFileUpload (f :: fs) (UploadOutcome.resp true d) s).state.uploadedFiles
      = [mkUploadedFile f d] ∧
    (handleFileUpload (f :: fs) (UploadOutcome.resp true d) s).state.uploadedFiles.length
      = 1 ∧
    (handleFileUpload (f :: fs) (UploadOutcome.resp true d) s).state.documentText
      = d.text := by
  refine ⟨?_, rfl, rfl, rfl⟩
  rcases o with ⟨b, data⟩ | m
  · cases b <;> rfl
  · rfl

end UnveilDocs
